import Mathlib

/-!
Shallow embedding of `src/scenarios/bin/mock-smf.py`, the mock PFCP
session-manager client.  The Python module keeps its mutable state in
module-level globals (`sequence_number`, `association_established`,
`script_terminating`, `active_sessions`, and the write-only global
`peer_seid`); here that context is a `ClientState` record threaded
explicitly through each operation.  The wire codec (scapy packet
construction / dissection) and the UDP transport are out of scope; a
message is represented by the abstract fields the core logic chooses, and
each exchange-performing operation is modeled by its effect on the state
together with the list of messages it sends.

Operations are embedded as they actually execute.  In particular, the
session create / delete path is dead code in this source: the argument
parser registers the session count only under the `session_count`
attribute (`--session-count`, line 605), while `add_rules_to_request`
(line 326), `create_pfcp_sessions` (line 524) and `delete_pfcp_sessions`
(line 535) all read `args.ue_count`, so each of these functions raises
AttributeError before reaching any rule, registry or cache logic.  The
embedding models namespace attribute lookup explicitly (`Args.getattr`)
and derives those failures from it rather than repairing them.  The
self-contained parts — `already_sent` (whose cache dict is a parameter),
`get_sequence_num`, the association operations, the response handling of
`send_recv_pfcp`, and the heartbeat loop — are executable and embedded
directly.
-/

namespace MockSmf

/-- Classification of a candidate rule relative to the last value sent for
its identifier: `New` (identifier never sent), `Unchanged` (structurally
equal to the previous value), `Changed` (structurally different). -/
inductive Classification
  | New
  | Unchanged
  | Changed
deriving DecidableEq, Repr

/-- Functional model of a Python dict from rule identifier to rule content:
an association list where the most recent binding shadows older ones. -/
abbrev RuleMap (α : Type) := List (Nat × α)

/-- Dict lookup (`sent_rule_map.get(rule_id, None)`): first binding wins. -/
def lookupRule {α : Type} : RuleMap α → Nat → Option α
  | [], _ => none
  | (k, v) :: rest, i => if k = i then some v else lookupRule rest i

/-- Dict assignment (`sent_rule_map[rule_id] = rule`): the new binding
shadows any previous binding for the same key. -/
def storeRule {α : Type} (m : RuleMap α) (i : Nat) (r : α) : RuleMap α :=
  (i, r) :: m

/-- Embedding of `already_sent` (source lines 57-70): read the previous
value for `rule_id`, store the candidate unconditionally, and report
whether the candidate equals the previous value (False when the identifier
had never been sent).  The cache dict is a parameter of the source
function, so this operation is self-contained and executable. -/
def already_sent {α : Type} [DecidableEq α] (rule_id : Nat) (rule : α)
    (sent_rule_map : RuleMap α) : Bool × RuleMap α :=
  let previous_rule := lookupRule sent_rule_map rule_id
  let m := storeRule sent_rule_map rule_id rule
  match previous_rule with
  | none => (false, m)
  | some p => (decide (p = rule), m)

/-- Specification-level view of the same operation as a three-way
classification.  It performs the identical store-then-compare side effect:
the candidate is written before the comparison result (computed from the
previous value) is used. -/
def classify {α : Type} [DecidableEq α] (rule_id : Nat) (rule : α)
    (sent_rule_map : RuleMap α) : Classification × RuleMap α :=
  let previous_rule := lookupRule sent_rule_map rule_id
  let m := storeRule sent_rule_map rule_id rule
  match previous_rule with
  | none => (Classification.New, m)
  | some p =>
      if p = rule then (Classification.Unchanged, m)
      else (Classification.Changed, m)

/-- The four independent rule kinds of the data model (packet detection,
forwarding action, usage reporting, quality enforcement). -/
inductive RuleKind
  | pdr
  | far
  | urr
  | qer
deriving DecidableEq, Repr

/-- Abstract content of a rule, with structural equality standing for the
structural equality of the corresponding scapy IE trees that
`already_sent` compares. -/
inductive ModelRule
  | pdr (id precedence far_id qer_id urr_id src_iface : Nat)
      (from_tunnel : Bool) (teid tunnel_dst ue_addr : Option Nat)
      (update : Bool)
  | far (id : Nat) (forward_flag drop_flag buffer_flag : Bool)
      (dst_iface : Nat) (tunnel : Bool) (tunnel_dst teid : Option Nat)
      (update : Bool)
  | qer (id max_bitrate_up max_bitrate_down guaranteed_bitrate_up
      guaranteed_bitrate_down : Nat) (update : Bool)
  | urr (id quota threshold : Nat) (update : Bool)
deriving DecidableEq, Repr

/-- One cache dict per rule kind, as the data model describes. -/
structure SentRules where
  sent_pdrs : RuleMap ModelRule
  sent_fars : RuleMap ModelRule
  sent_urrs : RuleMap ModelRule
  sent_qers : RuleMap ModelRule
deriving DecidableEq, Repr

/-- Empty caches: no rule of any kind has been sent. -/
def SentRules.empty : SentRules := ⟨[], [], [], []⟩

/-- Projection of the cache for one rule kind. -/
def SentRules.get : RuleKind → SentRules → RuleMap ModelRule
  | RuleKind.pdr, s => s.sent_pdrs
  | RuleKind.far, s => s.sent_fars
  | RuleKind.urr, s => s.sent_urrs
  | RuleKind.qer, s => s.sent_qers

/-- Replacement of the cache for one rule kind. -/
def SentRules.set : RuleKind → RuleMap ModelRule → SentRules → SentRules
  | RuleKind.pdr, m, s => { s with sent_pdrs := m }
  | RuleKind.far, m, s => { s with sent_fars := m }
  | RuleKind.urr, m, s => { s with sent_urrs := m }
  | RuleKind.qer, m, s => { s with sent_qers := m }

/-- Classification against the cache of one rule kind, leaving the other
three caches untouched. -/
def classifyK (k : RuleKind) (i : Nat) (r : ModelRule) (s : SentRules) :
    Classification × SentRules :=
  let p := classify i r (SentRules.get k s)
  (p.1, SentRules.set k p.2 s)

/-- Embedding of `get_sequence_num` (source lines 111-123) as executed with
the lock held throughout: zero the counter when `reset` is set, then
increment and return it.  The pair is (returned value, counter afterwards).
The actual source releases the lock before the `return` statement re-reads
the shared counter; that racy read is modeled separately by `raceStep`. -/
def get_sequence_num (reset : Bool) (sequence_number : Nat) : Nat × Nat :=
  let s := (if reset then 0 else sequence_number) + 1
  (s, s)

/-- Interleaved-execution model of two concurrent `get_sequence_num` calls
(threads A and B, neither resetting).  Each call consists of two atomic
steps taken from the source: the lock-protected increment
(`sequence_number += 1`, lines 117-122) and the unprotected read of the
shared counter performed by `return sequence_number` after
`thread_lock.release()` (line 123).  `pcA`/`pcB` are the program counters
(0 = before increment, 1 = between release and return, 2 = returned) and
`retA`/`retB` the values the calls return. -/
structure RaceState where
  counter : Nat
  pcA : Nat
  pcB : Nat
  retA : Nat
  retB : Nat
deriving DecidableEq, Repr

/-- One scheduler step: run the next atomic step of thread B when `tid` is
`true`, of thread A otherwise. -/
def raceStep (st : RaceState) (tid : Bool) : RaceState :=
  if tid then
    if st.pcB = 0 then { st with counter := st.counter + 1, pcB := 1 }
    else if st.pcB = 1 then { st with retB := st.counter, pcB := 2 }
    else st
  else
    if st.pcA = 0 then { st with counter := st.counter + 1, pcA := 1 }
    else if st.pcA = 1 then { st with retA := st.counter, pcA := 2 }
    else st

/-- Run a schedule of interleaved steps. -/
def raceRun (sched : List Bool) (st : RaceState) : RaceState :=
  sched.foldl raceStep st

/-- Both threads poised to call `get_sequence_num` with the counter at 0. -/
def raceInit : RaceState := ⟨0, 0, 0, 0, 0⟩

/-- Session record (source dataclass `Session`, lines 29-36): the locally
chosen token, the peer-assigned token once received, and four per-session
sent-rule dicts that the dataclass declares but the module logic never
reads. -/
structure Session where
  our_seid : Nat
  peer_seid : Option Nat
  sent_pdrs : RuleMap ModelRule := []
  sent_fars : RuleMap ModelRule := []
  sent_urrs : RuleMap ModelRule := []
  sent_qers : RuleMap ModelRule := []
deriving DecidableEq, Repr

/-- Error taxonomy.  `attributeError` models the Python AttributeError
raised by reading a name the parsed argument namespace does not carry
(`args.ue_count` at source lines 326, 524 and 535, against the parser
registration of `--session-count` at line 605).  `unknownSession` and
`duplicateSession` are the registry failures named by the specification;
as the theorems below show, no execution of this source produces either
of them. -/
inductive Err
  | duplicateSession
  | unknownSession
  | attributeError
deriving DecidableEq, Repr

/-- Abstract outbound messages, carrying the header fields the core logic
chooses (the codec fills in the rest). -/
inductive Msg
  | associationSetupRequest
  | associationReleaseRequest
  | heartbeatRequest (seq : Nat)
  | sessionEstablishmentRequest (seq : Nat)
  | sessionModificationRequest (seq : Nat)
  | sessionDeletionRequest (seq : Nat)
deriving DecidableEq, Repr

/-- The mutable module-level context of the client (source lines 39-49
plus the write-only global `peer_seid` of line 472): association flag,
termination flag, sequence counter, the peer session token once received,
and the session registry `active_sessions`. -/
structure ClientState where
  association_established : Bool
  script_terminating : Bool
  sequence_number : Nat
  peer_seid : Option Nat
  active_sessions : List (Nat × Session)
deriving DecidableEq, Repr

/-- Fresh process state (source lines 43-47): association down, nothing
terminating, counter 0, no peer token received, no sessions. -/
def init : ClientState :=
  { association_established := false
    script_terminating := false
    sequence_number := 0
    peer_seid := none
    active_sessions := [] }

/-- Parsed command-argument namespace, with exactly the destinations the
parser registers (source lines 600-632): `--buffer`, `--session-count`
(destination attribute `session_count`), `--ue-pool` (carried as integer
network address plus host-bit count), `--s1u-addr`, `--enb-addr`,
`--seid-base`, `--teid-base`, `--pdr-base`, `--far-base`, `--urr-base`,
`--qer-base`, `--pdr-precedence`.  No `ue_count` attribute exists. -/
structure Args where
  buffer : Bool
  session_count : Nat
  ue_pool_base : Nat
  ue_pool_hostbits : Nat
  s1u_addr : Nat
  enb_addr : Nat
  seid_base : Nat
  teid_base : Nat
  pdr_base : Nat
  far_base : Nat
  urr_base : Nat
  qer_base : Nat
  pdr_precedence : Nat
deriving DecidableEq, Repr

/-- Names under which the source reads numeric attributes of the parsed
namespace.  `ue_count` is among them (lines 326, 524, 535) although the
parser never registers it. -/
inductive ArgAttr
  | session_count
  | ue_count
  | seid_base
  | teid_base
  | pdr_base
  | far_base
  | urr_base
  | qer_base
  | pdr_precedence
deriving DecidableEq, Repr

/-- Python attribute lookup on the parsed namespace: registered
destinations yield their value; reading `ue_count`, which the parser
registers only as `session_count` (line 605), raises AttributeError. -/
def Args.getattr (a : Args) : ArgAttr → Except Err Nat
  | ArgAttr.session_count => Except.ok a.session_count
  | ArgAttr.ue_count => Except.error Err.attributeError
  | ArgAttr.seid_base => Except.ok a.seid_base
  | ArgAttr.teid_base => Except.ok a.teid_base
  | ArgAttr.pdr_base => Except.ok a.pdr_base
  | ArgAttr.far_base => Except.ok a.far_base
  | ArgAttr.urr_base => Except.ok a.urr_base
  | ArgAttr.qer_base => Except.ok a.qer_base
  | ArgAttr.pdr_precedence => Except.ok a.pdr_precedence

/-- Parser defaults (source lines 603-632): session count 1, UE pool
17.0.0.0/24, S1U 140.0.100.254, eNB 140.0.100.1, SEID base 1, TEID base
255, PDR / FAR / URR / QER bases 1, PDR precedence 2. -/
def defaultArgs : Args :=
  { buffer := false
    session_count := 1
    ue_pool_base := 17 * 2 ^ 24
    ue_pool_hostbits := 8
    s1u_addr := 140 * 2 ^ 24 + 100 * 2 ^ 8 + 254
    enb_addr := 140 * 2 ^ 24 + 100 * 2 ^ 8 + 1
    seid_base := 1
    teid_base := 255
    pdr_base := 1
    far_base := 1
    urr_base := 1
    qer_base := 1
    pdr_precedence := 2 }

/-- Flags of `add_rules_to_request` (source line 324). -/
structure Flags where
  update : Bool
  add_pdrs : Bool
  add_fars : Bool
  add_urrs : Bool
  add_qers : Bool
  force_add : Bool
deriving DecidableEq, Repr

/-- Embedding of `add_rules_to_request` (source lines 324-397).  Its first
statement, `rule_count = args.ue_count * 2` (line 326), reads the
`ue_count` attribute that the parsed namespace does not carry, so every
call raises AttributeError before any rule is crafted, any generator
advanced, or any cache touched.  Lines 327-397 are unreachable; the second
branch below is dead and mapped to the same failure. -/
def add_rules_to_request (args : Args) (_fl : Flags) :
    Except Err (List ModelRule) :=
  match args.getattr ArgAttr.ue_count with
  | Except.error e => Except.error e
  | Except.ok _rule_count => Except.error Err.attributeError

/-- Range expression of the URR identifier generator,
`range(args.urr_base, args.urr_base + rule_count)` (source line 332).  No
execution reaches this expression (the function has already raised at line
326); it is embedded to record the identifier dataflow of the source
text. -/
def urr_id_range (urr_base rule_count : Nat) : List Nat :=
  List.range' urr_base rule_count

/-- Range expression of the QER identifier generator (source line 333),
which the source builds from `args.urr_base`, not `args.qer_base`.  As
with `urr_id_range`, no execution reaches it. -/
def qer_id_range (urr_base rule_count : Nat) : List Nat :=
  List.range' urr_base rule_count

/-- Decoded information element: its type tag and the session token field
the correlator reads from F-SEID elements (type 57). -/
structure IE where
  ie_type : Nat
  seid : Nat
deriving DecidableEq, Repr

/-- Decoded inbound message: kind plus information elements. -/
structure Response where
  message_type : Nat
  IE_list : List IE
deriving DecidableEq, Repr

/-- Outcome of one receive in the correlator. -/
inductive RecvResult
  | ok
  | unexpectedResponseKind (expected received : Nat)
deriving DecidableEq, Repr

/-- Application of the information elements of a matching response (source
lines 487-501): every F-SEID element (type 57) overwrites the peer session
token, later elements winning. -/
def apply_ies : List IE → Option Nat → Option Nat
  | [], ps => ps
  | ie :: rest, ps =>
      apply_ies rest (if ie.ie_type = 57 then some ie.seid else ps)

/-- Embedding of the response handling of `send_recv_pfcp` (source lines
464-505): when the decoded kind matches the expected kind, the peer
session token is extracted and applied; otherwise an error naming both
kinds is reported and the state is returned untouched. -/
def send_recv_pfcp (st : ClientState) (resp : Response)
    (expected_response_type : Nat) : RecvResult × ClientState :=
  if resp.message_type = expected_response_type then
    (RecvResult.ok,
      { st with peer_seid := apply_ies resp.IE_list st.peer_seid })
  else
    (RecvResult.unexpectedResponseKind expected_response_type
        resp.message_type, st)

/-- Embedding of `setup_pfcp_association` (source lines 508-513) under a
successful exchange: the sequence counter is reset (the reset call's
return value is discarded), the setup request is sent, and on return the
association flag is raised. -/
def setup_pfcp_association (st : ClientState) : List Msg × ClientState :=
  let p := get_sequence_num true st.sequence_number
  ([Msg.associationSetupRequest],
    { st with sequence_number := p.2, association_established := true })

/-- Embedding of `teardown_pfcp_association` (source lines 516-520) under a
successful exchange: the release request is sent and the association flag
is lowered. -/
def teardown_pfcp_association (st : ClientState) : List Msg × ClientState :=
  ([Msg.associationReleaseRequest],
    { st with association_established := false })

/-- Embedding of `interrupt_association` (source lines 572-575): the
association flag is lowered and the session registry is cleared; nothing
is sent. -/
def interrupt_association (st : ClientState) : List Msg × ClientState :=
  ([], { st with association_established := false, active_sessions := [] })

/-- Embedding of `create_pfcp_sessions` (source lines 523-526).  Its first
statement, `session_ids = range(args.seid_base, args.seid_base +
args.ue_count)` (line 524), evaluates `args.seid_base` and then
`args.ue_count`, raising AttributeError before any packet is crafted or
sent and before the session registry is touched.  Line 525 onward is
unreachable; the final branch below is dead and mapped to the same
failure. -/
def create_pfcp_sessions (args : Args) (_st : ClientState) :
    Except Err (List Msg × ClientState) :=
  match args.getattr ArgAttr.seid_base with
  | Except.error e => Except.error e
  | Except.ok _seid_base =>
    match args.getattr ArgAttr.ue_count with
    | Except.error e => Except.error e
    | Except.ok _ue_count => Except.error Err.attributeError

/-- Embedding of `delete_pfcp_sessions` (source lines 534-539).  Its first
statement, `for seid in range(args.seid_base, args.seid_base +
args.ue_count)` (line 535), evaluates `args.seid_base` and then
`args.ue_count`, raising AttributeError before any registry lookup, any
packet crafting or send, and before `clear_sent_rules` runs.  The loop
body is unreachable; the final branch below is dead and mapped to the same
failure. -/
def delete_pfcp_sessions (args : Args) (_st : ClientState) :
    Except Err (List Msg × ClientState) :=
  match args.getattr ArgAttr.seid_base with
  | Except.error e => Except.error e
  | Except.ok _seid_base =>
    match args.getattr ArgAttr.ue_count with
    | Except.error e => Except.error e
    | Except.ok _ue_count => Except.error Err.attributeError

/-- Result of running the `stop` command: the messages sent, the resulting
state, whether the process exits, and the exception (if any) that escaped
to the command loop. -/
structure TermResult where
  msgs : List Msg
  state : ClientState
  exited : Bool
  error : Option Err
deriving DecidableEq, Repr

/-- Embedding of `terminate` (source lines 578-584) together with the
exception handler of the command loop (source lines 657-664): while the
association is established a best-effort session delete runs first; were
it to succeed, `script_terminating` would be raised and the process would
exit (lines 583-584; that branch is unreachable because
`delete_pfcp_sessions` always raises); on its failure the exception
escapes `terminate`, the command loop raises `script_terminating` and
re-raises, ending the input thread, and with the heartbeat thread
observing the flag the process exits as well. -/
def run_terminate (args : Args) (st : ClientState) : TermResult :=
  if st.association_established then
    match delete_pfcp_sessions args st with
    | Except.ok (msgs, st2) =>
        { msgs := msgs
          state := { st2 with script_terminating := true }
          exited := true
          error := none }
    | Except.error e =>
        { msgs := []
          state := { st with script_terminating := true }
          exited := true
          error := some e }
  else
    { msgs := []
      state := { st with script_terminating := true }
      exited := true
      error := none }

/-- Heartbeat-loop outcome of one wake (source lines 542-563): a raised
termination flag ends the activity, an unestablished association skips the
tick, and only an established association sends a probe. -/
inductive HbAction
  | exited
  | skipped
  | sent
deriving DecidableEq, Repr

/-- One tick of `send_pfcp_heartbeats`: the termination flag is polled
first (inside the sleep loop, lines 544-548), then the association flag
(lines 549-551). -/
def heartbeat_tick (script_terminating association_established : Bool) :
    HbAction :=
  if script_terminating then HbAction.exited
  else if association_established then HbAction.sent
  else HbAction.skipped

/-- Actions over a schedule of observed (terminating, established) flag
pairs; the loop body never runs again after the exit. -/
def heartbeat_actions : List (Bool × Bool) → List HbAction
  | [] => []
  | (t, e) :: rest =>
    match heartbeat_tick t e with
    | HbAction.exited => [HbAction.exited]
    | HbAction.skipped => HbAction.skipped :: heartbeat_actions rest
    | HbAction.sent => HbAction.sent :: heartbeat_actions rest

/-- Number of probe messages sent over a schedule. -/
def heartbeat_msgs : List (Bool × Bool) → Nat
  | [] => 0
  | (t, e) :: rest =>
    match heartbeat_tick t e with
    | HbAction.exited => 0
    | HbAction.skipped => heartbeat_msgs rest
    | HbAction.sent => 1 + heartbeat_msgs rest

/-- An established association with one registered session whose peer
token has been received: the most favorable state for the teardown inside
`terminate`. -/
def estState : ClientState :=
  { init with
    association_established := true
    active_sessions := [(1, { our_seid := 1, peer_seid := some 100 })] }

lemma classify_seq_generic {α : Type} [DecidableEq α] (i : Nat) (r1 r2 : α)
    (h : r1 ≠ r2) :
    (classify i r1 ([] : RuleMap α)).1 = Classification.New ∧
    (classify i r1 (classify i r1 ([] : RuleMap α)).2).1 =
      Classification.Unchanged ∧
    (classify i r2 (classify i r1 ([] : RuleMap α)).2).1 =
      Classification.Changed ∧
    (classify i r2 (classify i r2 (classify i r1 ([] : RuleMap α)).2).2).1 =
      Classification.Unchanged := by
  refine ⟨rfl, ?_, ?_, ?_⟩ <;>
    simp [classify, lookupRule, storeRule, h]

lemma heartbeat_msgs_idle :
    ∀ l : List (Bool × Bool), (∀ p ∈ l, p.2 = false) →
      heartbeat_msgs l = 0
  | [], _ => rfl
  | (t, e) :: rest, h => by
    have he : e = false := h (t, e) (List.mem_cons_self _ _)
    have hr :=
      heartbeat_msgs_idle rest (fun p hp => h p (List.mem_cons_of_mem _ hp))
    cases t <;> simp [heartbeat_msgs, heartbeat_tick, he, hr]

lemma delete_raises (args : Args) (st : ClientState) :
    delete_pfcp_sessions args st = Except.error Err.attributeError := rfl

lemma create_raises (args : Args) (st : ClientState) :
    create_pfcp_sessions args st = Except.error Err.attributeError := rfl

end MockSmf

namespace MockSmf

/-- Claim C1: for every rule kind `k` and rule identifier `i`, starting from
empty rule change caches, the first classify call for `(k, i)` returns
`New`; a second call with a candidate structurally identical to the first
returns `Unchanged`; a second call with a structurally different candidate
returns `Changed`; and a third call repeating that second candidate returns
`Unchanged`. -/
theorem rule_classification_sequence (k : RuleKind) (i : Nat)
    (r1 r2 : ModelRule) (h : r1 ≠ r2) :
    (classifyK k i r1 SentRules.empty).1 = Classification.New ∧
    (classifyK k i r1 (classifyK k i r1 SentRules.empty).2).1 =
      Classification.Unchanged ∧
    (classifyK k i r2 (classifyK k i r1 SentRules.empty).2).1 =
      Classification.Changed ∧
    (classifyK k i r2
        (classifyK k i r2 (classifyK k i r1 SentRules.empty).2).2).1 =
      Classification.Unchanged := by
  have hg := classify_seq_generic i r1 r2 h
  cases k <;>
    simpa [classifyK, SentRules.empty, SentRules.get, SentRules.set]
      using hg

/-- Witness for C1 at a concrete rule kind, identifier and pair of
structurally different rules. -/
theorem rule_classification_sequence_witness :
    (ModelRule.qer 1 0 0 0 0 false ≠ ModelRule.qer 2 0 0 0 0 false) ∧
    ((classifyK RuleKind.pdr 7 (ModelRule.qer 1 0 0 0 0 false)
        SentRules.empty).1 = Classification.New ∧
      (classifyK RuleKind.pdr 7 (ModelRule.qer 1 0 0 0 0 false)
        (classifyK RuleKind.pdr 7 (ModelRule.qer 1 0 0 0 0 false)
          SentRules.empty).2).1 = Classification.Unchanged ∧
      (classifyK RuleKind.pdr 7 (ModelRule.qer 2 0 0 0 0 false)
        (classifyK RuleKind.pdr 7 (ModelRule.qer 1 0 0 0 0 false)
          SentRules.empty).2).1 = Classification.Changed ∧
      (classifyK RuleKind.pdr 7 (ModelRule.qer 2 0 0 0 0 false)
        (classifyK RuleKind.pdr 7 (ModelRule.qer 2 0 0 0 0 false)
          (classifyK RuleKind.pdr 7 (ModelRule.qer 1 0 0 0 0 false)
            SentRules.empty).2).2).1 = Classification.Unchanged) :=
  ⟨by decide,
    rule_classification_sequence RuleKind.pdr 7
      (ModelRule.qer 1 0 0 0 0 false) (ModelRule.qer 2 0 0 0 0 false)
      (by decide)⟩

/-- Claim C2: every `already_sent` call stores the candidate rule in the
cache unconditionally (the cache afterwards maps the identifier to the
candidate), `classify` performs the identical cache update, and the
returned classification is determined solely by the value the cache held
before the call: absent gives `New`, equal-to-previous gives `Unchanged`,
different-from-previous gives `Changed` (with `already_sent` returning
`true` exactly on `Unchanged`). -/
theorem classify_store_then_compare {α : Type} [DecidableEq α]
    (m : RuleMap α) (i : Nat) (r : α) :
    lookupRule (already_sent i r m).2 i = some r ∧
    (already_sent i r m).2 = storeRule m i r ∧
    (classify i r m).2 = (already_sent i r m).2 ∧
    ((already_sent i r m).1 = true ↔
      (classify i r m).1 = Classification.Unchanged) ∧
    (classify i r m).1 =
      (match lookupRule m i with
        | none => Classification.New
        | some p =>
            if p = r then Classification.Unchanged
            else Classification.Changed) := by
  cases hm : lookupRule m i with
  | none =>
      simp [already_sent, classify, storeRule, lookupRule, hm]
  | some p =>
      by_cases hp : p = r <;>
        simp [already_sent, classify, storeRule, lookupRule, hm, hp]

/-- Claim C3: starting from a not-established association, a successful
setup exchange raises the association status to established; a subsequent
successful release exchange lowers it back; and an interrupt issued on the
established state lowers it, sends no message, and clears the session
registry. -/
theorem association_round_trip (st : ClientState)
    (h : st.association_established = false) :
    (setup_pfcp_association st).2.association_established = true ∧
    (teardown_pfcp_association
        (setup_pfcp_association st).2).2.association_established = false ∧
    (interrupt_association (setup_pfcp_association st).2).1 = [] ∧
    (interrupt_association
        (setup_pfcp_association st).2).2.association_established = false ∧
    (interrupt_association
        (setup_pfcp_association st).2).2.active_sessions = [] := by
  simp [setup_pfcp_association, teardown_pfcp_association,
    interrupt_association, get_sequence_num]

/-- Witness for C3 at the fresh process state. -/
theorem association_round_trip_witness :
    init.association_established = false ∧
    ((setup_pfcp_association init).2.association_established = true ∧
      (teardown_pfcp_association
          (setup_pfcp_association init).2).2.association_established =
        false ∧
      (interrupt_association (setup_pfcp_association init).2).1 = [] ∧
      (interrupt_association
          (setup_pfcp_association init).2).2.association_established =
        false ∧
      (interrupt_association
          (setup_pfcp_association init).2).2.active_sessions = []) :=
  ⟨by decide, association_round_trip init (by decide)⟩

/-- Claim C4: when the decoded response kind differs from the expected
kind, the correlator reports an unexpected-response-kind condition naming
both kinds and returns the state untouched, so in particular no peer
session token is applied; the token-extraction path runs only on a kind
match. -/
theorem send_recv_kind_mismatch (st : ClientState) (resp : Response)
    (expected_response_type : Nat)
    (h : resp.message_type ≠ expected_response_type) :
    send_recv_pfcp st resp expected_response_type =
      (RecvResult.unexpectedResponseKind expected_response_type
        resp.message_type, st) := by
  simp [send_recv_pfcp, h]

/-- Witness for C4 at a concrete mismatching response. -/
theorem send_recv_kind_mismatch_witness :
    (Response.mk 1 []).message_type ≠ 2 ∧
    send_recv_pfcp init (Response.mk 1 []) 2 =
      (RecvResult.unexpectedResponseKind 2 1, init) :=
  ⟨by decide, send_recv_kind_mismatch init (Response.mk 1 []) 2 (by decide)⟩

/-- Claim C5 evaluated on the code: with the counter at 0, the interleaving
in which thread A runs its lock-protected increment (counter 1), thread B
runs its lock-protected increment (counter 2), and then each thread
performs the read of the shared counter that the source does after
releasing the lock, both completed calls return the value 2 — the handed
out sequence numbers are not pairwise distinct, because the source returns
a re-read of the shared counter taken outside the mutual-exclusion
region. -/
theorem sequence_race_duplicate :
    (raceRun [false, true, false, true] raceInit).pcA = 2 ∧
    (raceRun [false, true, false, true] raceInit).pcB = 2 ∧
    (raceRun [false, true, false, true] raceInit).retA = 2 ∧
    (raceRun [false, true, false, true] raceInit).retB = 2 := by
  decide

/-- Claim C6: a reset of the sequence counter followed immediately by the
increment-and-return step yields exactly 1, whatever the counter held
before: the combined call both returns 1 and leaves the counter at 1. -/
theorem reset_then_next_returns_one (s : Nat) :
    (get_sequence_num true s).1 = 1 ∧ (get_sequence_num true s).2 = 1 := by
  simp [get_sequence_num]

/-- Counterexample to C7 as stated: at the default configuration and the
fresh state (no session was ever created), the delete command fails not
with the unknown-session registry error but with the AttributeError from
reading `args.ue_count`, and a create command fails the same way instead
of ever producing a duplicate-session error. -/
theorem session_commands_raise_attribute_error :
    delete_pfcp_sessions defaultArgs init =
      Except.error Err.attributeError ∧
    create_pfcp_sessions defaultArgs init =
      Except.error Err.attributeError ∧
    Err.attributeError ≠ Err.unknownSession ∧
    Err.attributeError ≠ Err.duplicateSession := by
  refine ⟨rfl, rfl, by decide, by decide⟩

/-- Claim C7 as amended: deleting a session under a local token that was
never created does fail, but with the AttributeError raised by reading
`args.ue_count` (the parser registers the count only under
`session_count`), before any session-registry access — not with
UnknownSession; creating two sessions with the same local token fails the
same way on every call and with no other error — in particular
DuplicateSession is produced by no code path; and in all these failures no
session state changes, because each command raises before touching any
state. -/
theorem session_registry_misuse (args : Args) (st : ClientState) :
    delete_pfcp_sessions args st = Except.error Err.attributeError ∧
    delete_pfcp_sessions args st ≠ Except.error Err.unknownSession ∧
    create_pfcp_sessions args st = Except.error Err.attributeError ∧
    create_pfcp_sessions args st ≠ Except.error Err.duplicateSession := by
  refine ⟨rfl, ?_, rfl, ?_⟩
  · rw [delete_raises]
    intro h
    exact absurd (Except.error.inj h) (by decide)
  · rw [create_raises]
    intro h
    exact absurd (Except.error.inj h) (by decide)

/-- Counterexample to C8 as stated: running the stop command on an
established association (even with a fully established session in the
registry) sends nothing at all — no session deletion and no disassociate —
because the attempted session delete raises AttributeError immediately;
the process still exits. -/
theorem terminate_sends_nothing :
    (run_terminate defaultArgs estState).msgs = [] ∧
    (run_terminate defaultArgs estState).error =
      some Err.attributeError ∧
    (run_terminate defaultArgs estState).exited = true ∧
    (run_terminate defaultArgs estState).state.script_terminating =
      true := by
  decide

/-- Claim C8 as amended: whenever the stop command runs while the
association is established, it first attempts a best-effort session
delete, but that delete always fails immediately (AttributeError on
`args.ue_count`) before sending anything, and no disassociate exchange is
attempted; the escaping exception is caught by the command loop, which
raises the termination signal consumed by the heartbeat activity and
re-raises, so the process still exits — the teardown failure does not
prevent process exit. -/
theorem terminate_best_effort (args : Args) (st : ClientState)
    (h : st.association_established = true) :
    (run_terminate args st).exited = true ∧
    (run_terminate args st).state.script_terminating = true ∧
    (run_terminate args st).msgs = [] ∧
    (run_terminate args st).error = some Err.attributeError := by
  simp [run_terminate, h, delete_raises]

/-- Witness for C8 (amended) at an established association with one fully
established session. -/
theorem terminate_best_effort_witness :
    estState.association_established = true ∧
    ((run_terminate defaultArgs estState).exited = true ∧
      (run_terminate defaultArgs estState).state.script_terminating =
        true ∧
      (run_terminate defaultArgs estState).msgs = [] ∧
      (run_terminate defaultArgs estState).error =
        some Err.attributeError) :=
  ⟨by decide, terminate_best_effort defaultArgs estState (by decide)⟩

/-- Claim C9: over any schedule of heartbeat wakes during which the
association is never established, zero probe messages are sent; and a wake
that observes the raised termination signal ends the activity permanently
(its action trace is exactly the exit, with zero messages sent from then
on). -/
theorem heartbeat_idle_silent (ticks : List (Bool × Bool)) (e : Bool)
    (rest : List (Bool × Bool)) (h : ∀ p ∈ ticks, p.2 = false) :
    heartbeat_msgs ticks = 0 ∧
    heartbeat_actions ((true, e) :: rest) = [HbAction.exited] ∧
    heartbeat_msgs ((true, e) :: rest) = 0 := by
  refine ⟨heartbeat_msgs_idle ticks h, ?_, ?_⟩ <;>
    simp [heartbeat_actions, heartbeat_msgs, heartbeat_tick]

/-- Witness for C9 at a concrete idle schedule and a concrete
post-termination wake. -/
theorem heartbeat_idle_silent_witness :
    (∀ p ∈ [((false : Bool), (false : Bool)), (false, false)],
      p.2 = false) ∧
    (heartbeat_msgs [((false : Bool), (false : Bool)), (false, false)] =
        0 ∧
      heartbeat_actions ((true, true) :: [(false, true)]) =
        [HbAction.exited] ∧
      heartbeat_msgs ((true, true) :: [(false, true)]) = 0) :=
  ⟨by decide,
    heartbeat_idle_silent [(false, false), (false, false)] true
      [(false, true)] (by decide)⟩

/-- Claim C10 evaluated on the code: the QER identifier generator
expression of source line 333 is built from the URR base, so the two
identifier range expressions coincide for every base and count; but
`add_rules_to_request` raises AttributeError (reading the nonexistent
`args.ue_count`, line 326) on every input, before those generator
expressions are ever evaluated and before any rule is placed in a request,
so no request carrying rule identifiers is ever assembled or emitted — the
configured `qer_base` in particular has no effect on any behavior, with
the create command unchanged under any `qer_base` value. -/
theorem qer_ids_from_urr_base (args : Args) (fl : Flags)
    (stc : ClientState) (x b n : Nat) :
    qer_id_range b n = urr_id_range b n ∧
    add_rules_to_request args fl = Except.error Err.attributeError ∧
    create_pfcp_sessions { args with qer_base := x } stc =
      create_pfcp_sessions args stc :=
  ⟨rfl, rfl, rfl⟩

end MockSmf
